import Mathlib

/-!
Verification of the background-job semantics of
`openwisp_controller/config/tasks.py` (asynchronous reconciliation and
cache-invalidation core).

Shallow embedding conventions:
* Django model stores become explicit lists of records threaded through
  each job function; `objects.get(...)` becomes a lookup that can fail
  with the corresponding Django exception (`DoesNotExist`,
  `MultipleObjectsReturned`).
* Exceptions that may escape a job are part of the job's result type;
  state written before the exception is kept alongside, since database
  writes performed before a Python exception persist.
* Collaborator invocations (template recompute, cache invalidation,
  template cascade managers, the outbound webhook request) are recorded
  as values in the result, so that "invoked exactly once" is a statement
  about the result.
* Logging is modelled as an append-only list of `LogMsg` values.
* Timestamps are natural numbers; the acquisition of the mdns text
  (`subprocess.check_output`) is an external collaborator, so the
  reconciler is modelled as a function over the already-acquired list of
  announcement lines.
-/

/-- Log levels used by the jobs (`logger.warning` / `logger.error` /
`logger.info`). -/
inductive LogMsg
  | warning (msg : String)
  | error (msg : String)
  | info (msg : String)
deriving Repr, DecidableEq

/-! ## Discovery Reconciler (`update_adoptable_antenna_list`) -/

/-- The `AdoptableDevice` record. Field order follows the positional
constructor call in the source:
`AdoptableDevice(records['mac'], 'key', records['os_version'], antenna[7], now, now)`;
the lookup `objects.get(ip=...)` names the address field `ip`. -/
structure AdoptableDevice where
  mac_address : String
  adoption_key : String
  os_version : String
  ip : String
  first_seen : Nat
  last_seen : Nat
deriving Repr, DecidableEq

/-- Python exceptions that can escape the reconciler loop. -/
inductive DiscExc
  | indexError
  | doesNotExist
  | multipleObjectsReturned
deriving Repr, DecidableEq

/-- Registry plus log sink, the mutable state of one reconciler run. -/
structure DiscState where
  registry : List AdoptableDevice
  logs : List LogMsg
deriving Repr, DecidableEq

/-- Splitting a character list on every occurrence of a separator;
`splitOnChar sep cs` has one (possibly empty) chunk per gap, exactly as
Python `str.split(sep)` with a non-empty separator. -/
def splitOnChar (sep : Char) : List Char → List (List Char)
  | [] => [[]]
  | c :: cs =>
    if c = sep then [] :: splitOnChar sep cs
    else
      match splitOnChar sep cs with
      | [] => [[c]]
      | w :: ws => (c :: w) :: ws

/-- Python `s.split(';')` (and any single-character separator): one field
per gap, empty fields kept, `''` splitting to `['']`. -/
def pySplit (s : String) (sep : Char) : List String :=
  (splitOnChar sep s.data).map (fun cs => ⟨cs⟩)

/-- The characters before and after the first `=`, when there is one. -/
def breakAtEq : List Char → Option (List Char × List Char)
  | [] => none
  | c :: cs =>
    if c = '=' then some ([], cs)
    else (breakAtEq cs).map (fun p => (c :: p.1, p.2))

/-- Python `txt.split('=', maxsplit=1)`: at most one split, at the first
occurrence of the separator; a field with no `=` yields a one-element
list. -/
def splitFirstEq (txt : String) : List String :=
  match breakAtEq txt.data with
  | none => [txt]
  | some (k, v) => [⟨k⟩, ⟨v⟩]

/-- Python `line.startswith('=')`. -/
def pyStartsWith (s p : String) : Bool :=
  p.data.isPrefixOf s.data

/-- The loop `for txt in antenna[9:]: t = txt.split('=', maxsplit=1);
records[t[0]] = t[1]`. A field with no separator yields a one-element
split, and the `t[1]` access raises `IndexError`. Insertions are kept in
order; `recordsGet` below returns the latest binding, matching dict
overwrite semantics. -/
def buildRecords : List String → Except DiscExc (List (String × String))
  | [] => .ok []
  | txt :: rest =>
    match splitFirstEq txt with
    | [k, v] => (buildRecords rest).map (fun recs => (k, v) :: recs)
    | _ => .error .indexError

/-- Python `records.get(k)`: the value of the most recent insertion for
`k`, or `None`. With `buildRecords` prepending in field order, the most
recent insertion for a duplicated key is the last field, i.e. the last
match in the list read left to right. -/
def recordsGet (recs : List (String × String)) (k : String) : Option String :=
  (recs.reverse.find? (fun p => p.1 == k)).map (fun p => p.2)

/-- Python `records.get('mac') == None or records.get('os_version') == None or
records.get('version') == None`. -/
def invalidAnnouncement (recs : List (String × String)) : Bool :=
  (recordsGet recs "mac").isNone || (recordsGet recs "os_version").isNone ||
    (recordsGet recs "version").isNone

/-- The warning logged for an invalid announcement; its text carries the
parsed records, as the f-string in the source does. -/
def invalidAnnouncementWarning (recs : List (String × String)) : LogMsg :=
  .warning ("update_adoptable_antenna_list() invalid antenna announcement: " ++
    String.intercalate ", " (recs.map (fun p => p.1 ++ "=" ++ p.2)))

/-- Lookup `AdoptableDevice.objects.get(ip=addr)`: Django `get` returns the
unique matching record, raises `DoesNotExist` when there is none and
`MultipleObjectsReturned` when there are several. It never returns
`None`. -/
def objectsGetByIp (reg : List AdoptableDevice) (addr : String) :
    Except DiscExc AdoptableDevice :=
  match reg.filter (fun d => d.ip == addr) with
  | [] => .error .doesNotExist
  | [d] => .ok d
  | _ => .error .multipleObjectsReturned

/-- Update `known_adoptable.last_seen = now; known_adoptable.save()`: persist the
updated record under its unique address key. -/
def saveLastSeen (reg : List AdoptableDevice) (addr : String) (now : Nat) :
    List AdoptableDevice :=
  reg.map (fun d => if d.ip == addr then { d with last_seen := now } else d)

/-- One iteration of the `for antenna in mdns_response` loop. Returns the
exception status together with the state at the moment the iteration
ended (writes made before an exception persist). -/
def processLine (st : DiscState) (now : Nat) (line : String) :
    Except DiscExc Unit × DiscState :=
  if pyStartsWith line "=" then
    let fields := pySplit line ';'
    match buildRecords (fields.drop 9) with
    | .error e => (.error e, st)
    | .ok recs =>
      if invalidAnnouncement recs then
        (.ok (), { st with logs := st.logs ++ [invalidAnnouncementWarning recs] })
      else
        match objectsGetByIp st.registry (fields.getD 7 "") with
        | .error e => (.error e, st)
        | .ok known =>
          -- `if known_adoptable != None:` — `objects.get` never returns
          -- `None`, so the comparison is `some known != none`
          if (some known ≠ (none : Option AdoptableDevice)) then
            (.ok (), { st with
              registry := saveLastSeen st.registry (fields.getD 7 "") now })
          else
            -- dead branch in the source: `AdoptableDevice(...); a.save()`
            (.ok (), { st with
              registry := st.registry ++
                [⟨(recordsGet recs "mac").getD "", "key",
                  (recordsGet recs "os_version").getD "", fields.getD 7 "",
                  now, now⟩] })
  else (.ok (), st)

/-- The reconciler loop over the announcement lines: process each line in
order, stopping (with state kept) at the first uncaught exception. -/
def runReconciler (st : DiscState) (now : Nat) :
    List String → Except DiscExc Unit × DiscState
  | [] => (.ok (), st)
  | line :: rest =>
    match processLine st now line with
    | (.error e, st') => (.error e, st')
    | (.ok _, st') => runReconciler st' now rest

/-- A valid announcement line in the field layout the source consumes:
marker `=` at field 0, network address at field 7, TXT records from
field 9. -/
def exampleValidLine : String :=
  "=;eth0;IPv4;host;local;;;10.0.0.5;1234;mac=AA:BB:CC:DD:EE:FF;os_version=1.2;version=3.0"

/-- A resolved line whose TXT-record region holds a field without `=`;
after the split on the first `=` its records carry none of the required
keys. -/
def exampleNoEqLine : String :=
  "=;eth0;IPv4;host;local;;;10.0.0.6;1234;foo"

/-- A resolved line whose TXT records parse but lack `mac`. -/
def exampleMissingMacLine : String :=
  "=;eth0;IPv4;host;local;;;10.0.0.7;1234;os_version=1.2;version=3.0"

/-- A registry record for address `10.0.0.5`, used as a concrete known
device. -/
def exampleKnownDevice : AdoptableDevice :=
  ⟨"AA:BB:CC:DD:EE:FF", "key0", "1.0", "10.0.0.5", 5, 5⟩

/-! ## Template Status Propagator (`update_template_related_config_status`) -/

/-- Result of one `update_template_related_config_status` run. Both
exceptions the body can meet (`ObjectDoesNotExist` from the fetch,
`SoftTimeLimitExceeded` from the recompute) are caught, so the job always
returns; `recomputeCalls` records each invocation of
`template._update_related_config_status()`. -/
structure TemplateRunResult where
  logs : List LogMsg
  recomputeCalls : List String
deriving Repr, DecidableEq

/-- Job `update_template_related_config_status(template_pk)`: fetch the
template by primary key; absence is logged and the job returns; otherwise
the recompute operation is invoked once, a soft-time-limit hit during it
being caught and logged. `templates` is the store of existing template
primary keys; `recomputeTimesOut` is the external outcome of the
recompute operation. -/
def update_template_related_config_status (templates : List String)
    (template_pk : String) (recomputeTimesOut : Bool) : TemplateRunResult :=
  match templates.find? (fun t => t == template_pk) with
  | none =>
    { logs := [.warning ("update_template_related_config_status(\"" ++
        template_pk ++ "\") failed: Template matching query does not exist.")],
      recomputeCalls := [] }
  | some t =>
    if recomputeTimesOut then
      { logs := [.error ("soft time limit hit while executing " ++
          "_update_related_config_status for " ++ t ++ " (ID: " ++
          template_pk ++ ")")],
        recomputeCalls := [t] }
    else
      { logs := [], recomputeCalls := [t] }

/-! ## VPN Parameter Generator (`create_vpn_dh`) -/

/-- The `Vpn` entity, reduced to the fields this job touches: the primary
key and the optional DH-parameter blob. -/
structure Vpn where
  pk : String
  dh : Option String
deriving Repr, DecidableEq

/-- Exceptions that can escape `create_vpn_dh`: the unguarded
`Vpn.objects.get` and the unguarded `vpn.full_clean()`. -/
inductive VpnExc
  | doesNotExist
  | validationError
deriving Repr, DecidableEq

/-- Result of one `create_vpn_dh` run: exception status (`none` = the job
returned normally), the VPN store after the run, the log entries, and how
many times `vpn.full_clean()` was invoked. -/
structure VpnRunResult where
  outcome : Option VpnExc
  store : List Vpn
  logs : List LogMsg
  validateCalls : Nat
deriving Repr, DecidableEq

/-- Job `create_vpn_dh(vpn_pk)`: fetch the Vpn (fatal if absent); attempt DH
generation (`dhGen = none` models `Vpn.dhparam(2048)` raising
`SoftTimeLimitExceeded`, `some blob` its successful result); on timeout
log and return with no write; on success set `dh`, run `full_clean`
(`validates`), and persist only if validation passes — a validation
failure escapes uncaught and nothing is written. -/
def create_vpn_dh (store : List Vpn) (vpn_pk : String) (dhGen : Option String)
    (validates : Vpn → Bool) : VpnRunResult :=
  match store.find? (fun v => v.pk == vpn_pk) with
  | none => { outcome := some .doesNotExist, store := store, logs := [], validateCalls := 0 }
  | some vpn =>
    match dhGen with
    | none =>
      { outcome := none, store := store,
        logs := [.error ("soft time limit hit while generating DH " ++
          "parameters for VPN Server " ++ vpn.pk ++ " (ID: " ++ vpn_pk ++ ")")],
        validateCalls := 0 }
    | some blob =>
      let vpn' : Vpn := { vpn with dh := some blob }
      if validates vpn' then
        { outcome := none,
          store := store.map (fun v => if v.pk == vpn_pk then vpn' else v),
          logs := [], validateCalls := 1 }
      else
        { outcome := some .validationError, store := store, logs := [],
          validateCalls := 1 }

/-! ## Cache Invalidator, change path (`invalidate_devicegroup_cache_change`) -/

/-- The `DeviceGroupCommonName` cache-invalidation operations the change
path can invoke, each carrying the changed entity's identifier. -/
inductive CacheCall
  | device_change (instance_id : String)
  | devicegroup_change (instance_id : String)
  | certificate_change (instance_id : String)
deriving Repr, DecidableEq

/-- Value of `Device._meta.model_name`: Django lowercases the model class name. -/
def deviceModelName : String := "device"

/-- Value of `DeviceGroup._meta.model_name`. -/
def deviceGroupModelName : String := "devicegroup"

/-- Value of `Cert._meta.model_name`. -/
def certModelName : String := "cert"

/-- Value of `Config._meta.model_name`. -/
def configModelName : String := "config"

/-- Job `invalidate_devicegroup_cache_change(instance_id, model_name)`: an
`if`/`elif`/`elif` chain on the model name with no `else`; the result is
the list of invalidation operations invoked. -/
def invalidate_devicegroup_cache_change (instance_id : String)
    (model_name : String) : List CacheCall :=
  if model_name == deviceModelName then
    [.device_change instance_id]
  else if model_name == deviceGroupModelName then
    [.devicegroup_change instance_id]
  else if model_name == certModelName then
    [.certificate_change instance_id]
  else
    []

/-! ## VPN Webhook Notifier (`trigger_vpn_server_endpoint`) -/

/-- Result of one `trigger_vpn_server_endpoint` run: the number of
outbound requests issued and the log entries. The job has no
`try`/`except` around the status handling and no raise or retry path, so
there is no exception component. -/
structure WebhookRunResult where
  requestsMade : Nat
  logs : List LogMsg
deriving Repr, DecidableEq

/-- The error message the source formats for a non-200 response. -/
def webhookErrorMsg (status : Nat) (vpn_id : String) : String :=
  "Failed to update VPN Server configuration. Response status code: " ++
    toString status ++ ", VPN Server UUID: " ++ vpn_id

/-- Job `trigger_vpn_server_endpoint(endpoint, auth_token, vpn_id)` after the
single `requests.post` returned a response with the given status code:
on 200 log success, otherwise log the error message with the status code
and the VPN identifier. -/
def trigger_vpn_server_endpoint (status : Nat) (vpn_id : String) :
    WebhookRunResult :=
  if status == 200 then
    { requestsMade := 1,
      logs := [.info ("Triggered update webhook of VPN Server UUID: " ++ vpn_id)] }
  else
    { requestsMade := 1, logs := [.error (webhookErrorMsg status vpn_id)] }

/-! ## Template Cascade Manager (`change_devices_templates`) -/

/-- The collaborator invocations of the three cascade branches, with the
arguments the source passes (absent keyword arguments become `none`,
matching `kwargs.get`). The `backend` call also carries the keyword
arguments left over after the two `pop`s (`**kwargs`). -/
inductive CascadeCall
  | devices (device_ids : String) (old_group_ids : Option String)
      (group_id : Option String)
  | group (group_id : String) (old_template_ids : Option String)
      (template_ids : Option String)
  | backend (instance_id : String) (old_backend : String) (backend : String)
      (rest : List (String × String))
deriving Repr, DecidableEq

/-- Outcome of one `change_devices_templates` run: either a normal return
carrying the collaborator calls made, or a `KeyError` escaping from
`kwargs.pop` (in which case no collaborator was called). -/
inductive CascadeOutcome
  | ok (calls : List CascadeCall)
  | keyError
deriving Repr, DecidableEq

/-- Python `kwargs.pop(k)`: the value and the dictionary without `k`, or
`None` standing for the `KeyError` raise when `k` is absent. -/
def kwargsPop (kwargs : List (String × String)) (k : String) :
    Option (String × List (String × String)) :=
  match kwargs.lookup k with
  | none => none
  | some v => some (v, kwargs.filter (fun p => p.1 != k))

/-- Job `change_devices_templates(instance_id, model_name, **kwargs)`: route
on the model name to exactly one of the three collaborators; the config
branch pops `old_backend` then `backend` from the keyword arguments
(raising `KeyError` if either is absent, before the collaborator is
called) and forwards the remainder; an unmatched model name falls
through with no call. -/
def change_devices_templates (instance_id : String) (model_name : String)
    (kwargs : List (String × String)) : CascadeOutcome :=
  if model_name == deviceModelName then
    .ok [.devices instance_id (kwargs.lookup "old_group_id")
      (kwargs.lookup "group_id")]
  else if model_name == deviceGroupModelName then
    .ok [.group instance_id (kwargs.lookup "old_templates")
      (kwargs.lookup "templates")]
  else if model_name == configModelName then
    match kwargsPop kwargs "old_backend" with
    | none => .keyError
    | some (ob, kwargs1) =>
      match kwargsPop kwargs1 "backend" with
      | none => .keyError
      | some (nb, kwargs2) => .ok [.backend instance_id ob nb kwargs2]
  else
    .ok []

/-- The collaborator calls of a cascade outcome (`keyError` made none). -/
def CascadeOutcome.calls : CascadeOutcome → List CascadeCall
  | .ok cs => cs
  | .keyError => []

/-- String `s` occurs as a contiguous substring of `m`. -/
def containsText (m s : String) : Prop :=
  ∃ p q, m = p ++ s ++ q

/-! ## Helper lemmas -/

/-- Refreshing `last_seen` for the records at `addr` maps the records at
`addr` and only those. -/
theorem filter_saveLastSeen (reg : List AdoptableDevice) (addr : String)
    (now : Nat) :
    (saveLastSeen reg addr now).filter (fun x => x.ip == addr) =
      (reg.filter (fun x => x.ip == addr)).map
        (fun x => { x with last_seen := now }) := by
  induction reg with
  | nil => rfl
  | cons d ds ih =>
    by_cases h : d.ip = addr
    · simp [saveLastSeen, List.filter_cons, h] at ih ⊢
      exact ih
    · simp [saveLastSeen, List.filter_cons, h] at ih ⊢
      exact ih

/-- Lemma: `saveLastSeen` leaves records at other addresses in place. -/
theorem mem_saveLastSeen_of_other (reg : List AdoptableDevice) (addr : String)
    (now : Nat) (x : AdoptableDevice) (hx : x ∈ reg)
    (hne : (x.ip == addr) = false) : x ∈ saveLastSeen reg addr now := by
  unfold saveLastSeen
  exact List.mem_map.mpr ⟨x, hx, by simp [hne]⟩

/-! ## Claim theorems: Discovery Reconciler -/

/-- C1: the claim asserts that a valid resolved line whose network
address has no existing `AdoptableDevice` record leads to exactly one new
persisted record. In the source, `AdoptableDevice.objects.get(ip=...)`
raises `DoesNotExist` when no record matches, so the
`if known_adoptable != None ... else: create` branch is unreachable: on
the spec's own first-contact scenario (a valid line, empty registry) the
job raises `DoesNotExist` and creates nothing. This theorem evaluates the
reconciler at that failing input. -/
theorem C1_unknown_address_raises_instead_of_creating :
    runReconciler ⟨[], []⟩ 0 [exampleValidLine] =
      (.error .doesNotExist, ⟨[], []⟩) := rfl

/-- C2 counterexample: a resolved line with a TXT field containing no `=`
(`foo`), whose records after the split therefore lack all of `mac`,
`os_version` and `version`. The claim says such a line is skipped with a
warning, no exception, and processing continues; the source instead
raises `IndexError` at `t[1]`, logs nothing, and never reaches the next
line (the trailing line would have produced a warning). -/
theorem C2_counterexample_no_eq_field_raises :
    pyStartsWith exampleNoEqLine "=" = true ∧
    runReconciler ⟨[], []⟩ 0 [exampleNoEqLine, exampleMissingMacLine] =
      (.error .indexError, ⟨[], []⟩) := ⟨rfl, rfl⟩

/-- C2 (amended): for every resolved line whose TXT fields each contain
`=` (so that building the record dictionary succeeds) and whose records
are missing any of `mac`, `os_version`, `version`, the reconciler logs a
warning, performs no registry write, raises no exception, and continues
with the next line. -/
theorem C2_missing_fields_warn_and_skip (st : DiscState) (now : Nat)
    (line : String) (recs : List (String × String)) (rest : List String)
    (hres : pyStartsWith line "=" = true)
    (hrecs : buildRecords ((pySplit line ';').drop 9) = .ok recs)
    (hinv : invalidAnnouncement recs = true) :
    processLine st now line =
      (.ok (), { st with logs := st.logs ++ [invalidAnnouncementWarning recs] }) ∧
    (processLine st now line).2.registry = st.registry ∧
    runReconciler st now (line :: rest) =
      runReconciler { st with logs := st.logs ++ [invalidAnnouncementWarning recs] }
        now rest := by
  have h1 : processLine st now line =
      (.ok (), { st with logs := st.logs ++ [invalidAnnouncementWarning recs] }) := by
    simp [processLine, hres, hrecs, hinv]
  refine ⟨h1, ?_, ?_⟩
  · rw [h1]
  · simp [runReconciler, h1]

/-- C2 witness: the amended statement evaluated on a concrete line whose
records lack `mac`, against an empty registry. -/
theorem C2_missing_fields_warn_and_skip_witness :
    processLine ⟨[], []⟩ 0 exampleMissingMacLine =
      (.ok (), ⟨[], [invalidAnnouncementWarning
        [("os_version", "1.2"), ("version", "3.0")]]⟩) :=
  (C2_missing_fields_warn_and_skip ⟨[], []⟩ 0 exampleMissingMacLine
    [("os_version", "1.2"), ("version", "3.0")] [] rfl rfl rfl).1

/-- C3: for every valid resolved line whose network address (field 7)
already has exactly one `AdoptableDevice` record, the reconciler raises
no exception and persists exactly that record with `last_seen` set to the
current time: the registry keeps its length (no duplicate is created),
the unique record at the address is the old one with only `last_seen`
changed, and every record at another address is kept as it was. -/
theorem C3_known_address_updates_last_seen (st : DiscState) (now : Nat)
    (line : String) (recs : List (String × String)) (d : AdoptableDevice)
    (hres : pyStartsWith line "=" = true)
    (hrecs : buildRecords ((pySplit line ';').drop 9) = .ok recs)
    (hval : invalidAnnouncement recs = false)
    (hone : st.registry.filter
      (fun x => x.ip == (pySplit line ';').getD 7 "") = [d]) :
    processLine st now line =
      (.ok (),
        ⟨saveLastSeen st.registry ((pySplit line ';').getD 7 "") now, st.logs⟩) ∧
    (saveLastSeen st.registry ((pySplit line ';').getD 7 "") now).length =
      st.registry.length ∧
    (saveLastSeen st.registry ((pySplit line ';').getD 7 "") now).filter
      (fun x => x.ip == (pySplit line ';').getD 7 "") =
      [{ d with last_seen := now }] ∧
    (∀ x ∈ st.registry, (x.ip == (pySplit line ';').getD 7 "") = false →
      x ∈ saveLastSeen st.registry ((pySplit line ';').getD 7 "") now) := by
  refine ⟨?_, ?_, ?_, ?_⟩
  · have hone' := hone
    simp at hone'
    simp [processLine, hres, hrecs, hval, objectsGetByIp, hone']
  · exact List.length_map _ _
  · rw [filter_saveLastSeen, hone]
    rfl
  · intro x hx hne
    exact mem_saveLastSeen_of_other st.registry _ now x hx hne

/-- C3 witness: a valid line for address `10.0.0.5` against a registry
holding exactly one record for that address. -/
theorem C3_known_address_updates_last_seen_witness :
    processLine ⟨[exampleKnownDevice], []⟩ 9 exampleValidLine =
      (.ok (), ⟨[{ exampleKnownDevice with last_seen := 9 }], []⟩) ∧
    (saveLastSeen [exampleKnownDevice] "10.0.0.5" 9).filter
      (fun x => x.ip == "10.0.0.5") =
      [{ exampleKnownDevice with last_seen := 9 }] :=
  ⟨(C3_known_address_updates_last_seen ⟨[exampleKnownDevice], []⟩ 9
      exampleValidLine
      [("mac", "AA:BB:CC:DD:EE:FF"), ("os_version", "1.2"), ("version", "3.0")]
      exampleKnownDevice rfl rfl rfl rfl).1,
   (C3_known_address_updates_last_seen ⟨[exampleKnownDevice], []⟩ 9
      exampleValidLine
      [("mac", "AA:BB:CC:DD:EE:FF"), ("os_version", "1.2"), ("version", "3.0")]
      exampleKnownDevice rfl rfl rfl rfl).2.2.1⟩

/-! ## Claim theorems: Template Status Propagator -/

/-- C4: invoking the propagator with a template primary key that names no
existing template logs a warning and returns normally without invoking
the recompute operation; invoking it with an existing template's key
invokes the recompute operation exactly once, whatever the recompute
outcome. -/
theorem C4_absent_template_logged_noop (templates : List String)
    (template_pk : String) (timesOut : Bool) :
    (template_pk ∉ templates →
      (update_template_related_config_status templates template_pk
        timesOut).recomputeCalls = [] ∧
      (update_template_related_config_status templates template_pk
        timesOut).logs =
        [.warning ("update_template_related_config_status(\"" ++ template_pk ++
          "\") failed: Template matching query does not exist.")]) ∧
    (template_pk ∈ templates →
      (update_template_related_config_status templates template_pk
        timesOut).recomputeCalls = [template_pk]) := by
  constructor
  · intro hnot
    have hfind : templates.find? (fun t => t == template_pk) = none := by
      rw [List.find?_eq_none]
      intro x hx hbe
      exact hnot (eq_of_beq hbe ▸ hx)
    constructor <;> simp [update_template_related_config_status, hfind]
  · intro hmem
    cases hfind : templates.find? (fun t => t == template_pk) with
    | none =>
      exfalso
      rw [List.find?_eq_none] at hfind
      exact hfind template_pk hmem (by simp)
    | some t =>
      have hbe := List.find?_some hfind
      have ht : t = template_pk := by simpa using hbe
      subst ht
      cases timesOut <;> simp [update_template_related_config_status, hfind]

/-- C4 witness: a store holding only template `t1`; a run for the absent
key `t2` invokes nothing, a run for `t1` invokes the recompute once. -/
theorem C4_absent_template_logged_noop_witness :
    (update_template_related_config_status ["t1"] "t2" false).recomputeCalls =
      [] ∧
    (update_template_related_config_status ["t1"] "t1" false).recomputeCalls =
      ["t1"] :=
  ⟨((C4_absent_template_logged_noop ["t1"] "t2" false).1 (by decide)).1,
   (C4_absent_template_logged_noop ["t1"] "t1" false).2 (by decide)⟩

/-! ## Claim theorems: VPN Parameter Generator -/

/-- C5: for an existing Vpn whose stored `dh` is unset, a run in which DH
generation hits its soft time limit logs the timeout and returns
normally, with the store unchanged, the validation step never invoked,
and `dh` still unset for that key; and validation only ever runs when
generation succeeded. -/
theorem C5_dh_timeout_leaves_dh_unset (store : List Vpn) (vpn_pk : String)
    (validates : Vpn → Bool) (v : Vpn)
    (hfind : store.find? (fun x => x.pk == vpn_pk) = some v)
    (hunset : ∀ w ∈ store, w.pk = vpn_pk → w.dh = none) :
    (create_vpn_dh store vpn_pk none validates).outcome = none ∧
    (create_vpn_dh store vpn_pk none validates).store = store ∧
    (create_vpn_dh store vpn_pk none validates).validateCalls = 0 ∧
    (create_vpn_dh store vpn_pk none validates).logs =
      [.error ("soft time limit hit while generating DH " ++
        "parameters for VPN Server " ++ v.pk ++ " (ID: " ++ vpn_pk ++ ")")] ∧
    (∀ w ∈ (create_vpn_dh store vpn_pk none validates).store,
      w.pk = vpn_pk → w.dh = none) ∧
    (∀ g : Option String,
      0 < (create_vpn_dh store vpn_pk g validates).validateCalls →
        g.isSome = true) := by
  refine ⟨?_, ?_, ?_, ?_, ?_, ?_⟩
  · simp [create_vpn_dh, hfind]
  · simp [create_vpn_dh, hfind]
  · simp [create_vpn_dh, hfind]
  · simp [create_vpn_dh, hfind]
  · intro w hw
    have : (create_vpn_dh store vpn_pk none validates).store = store := by
      simp [create_vpn_dh, hfind]
    rw [this] at hw
    exact hunset w hw
  · intro g hg
    cases g with
    | some _ => rfl
    | none => simp [create_vpn_dh, hfind] at hg

/-- C5 witness: a one-record store whose Vpn `v1` has no DH blob, the
generation timing out. -/
theorem C5_dh_timeout_leaves_dh_unset_witness :
    (create_vpn_dh [⟨"v1", none⟩] "v1" none (fun _ => true)).outcome = none ∧
    (create_vpn_dh [⟨"v1", none⟩] "v1" none (fun _ => true)).store =
      [⟨"v1", none⟩] ∧
    (create_vpn_dh [⟨"v1", none⟩] "v1" none (fun _ => true)).validateCalls =
      0 :=
  ⟨(C5_dh_timeout_leaves_dh_unset [⟨"v1", none⟩] "v1" (fun _ => true)
      ⟨"v1", none⟩ rfl (by decide)).1,
   (C5_dh_timeout_leaves_dh_unset [⟨"v1", none⟩] "v1" (fun _ => true)
      ⟨"v1", none⟩ rfl (by decide)).2.1,
   (C5_dh_timeout_leaves_dh_unset [⟨"v1", none⟩] "v1" (fun _ => true)
      ⟨"v1", none⟩ rfl (by decide)).2.2.1⟩

/-- C6: for an existing Vpn, when DH generation succeeds but full
validation of the mutated entity fails, the validation error escapes the
job uncaught (validation was invoked) and the store is left exactly as it
was: the persist step is never reached. -/
theorem C6_validation_failure_propagates (store : List Vpn) (vpn_pk : String)
    (blob : String) (validates : Vpn → Bool) (v : Vpn)
    (hfind : store.find? (fun x => x.pk == vpn_pk) = some v)
    (hval : validates { v with dh := some blob } = false) :
    (create_vpn_dh store vpn_pk (some blob) validates).outcome =
      some .validationError ∧
    (create_vpn_dh store vpn_pk (some blob) validates).store = store ∧
    (create_vpn_dh store vpn_pk (some blob) validates).validateCalls = 1 := by
  refine ⟨?_, ?_, ?_⟩ <;> simp [create_vpn_dh, hfind, hval]

/-- C6 witness: generation succeeds with blob `dh0`, the validator
rejects every entity: the error escapes and the store is untouched. -/
theorem C6_validation_failure_propagates_witness :
    (create_vpn_dh [⟨"v1", none⟩] "v1" (some "dh0") (fun _ => false)).outcome =
      some .validationError ∧
    (create_vpn_dh [⟨"v1", none⟩] "v1" (some "dh0") (fun _ => false)).store =
      [⟨"v1", none⟩] :=
  ⟨(C6_validation_failure_propagates [⟨"v1", none⟩] "v1" "dh0" (fun _ => false)
      ⟨"v1", none⟩ rfl rfl).1,
   (C6_validation_failure_propagates [⟨"v1", none⟩] "v1" "dh0" (fun _ => false)
      ⟨"v1", none⟩ rfl rfl).2.1⟩

/-! ## Claim theorems: VPN Webhook Notifier -/

/-- C7: after the single outbound request, a 200 response logs the
success message; any other status logs an error message that contains
both the status code and the VPN identifier as substrings; in both cases
exactly one request was issued and the job returns normally (the status
handling has no raise and no retry path). -/
theorem C7_webhook_logs_status_and_id (status : Nat) (vpn_id : String) :
    (trigger_vpn_server_endpoint status vpn_id).requestsMade = 1 ∧
    (status = 200 →
      (trigger_vpn_server_endpoint status vpn_id).logs =
        [.info ("Triggered update webhook of VPN Server UUID: " ++ vpn_id)]) ∧
    (status ≠ 200 →
      (trigger_vpn_server_endpoint status vpn_id).logs =
        [.error (webhookErrorMsg status vpn_id)] ∧
      containsText (webhookErrorMsg status vpn_id) (toString status) ∧
      containsText (webhookErrorMsg status vpn_id) vpn_id) := by
  refine ⟨?_, ?_, ?_⟩
  · unfold trigger_vpn_server_endpoint
    split <;> rfl
  · intro h
    simp [trigger_vpn_server_endpoint, h]
  · intro h
    have hb : (status == 200) = false := by simpa using h
    refine ⟨by simp [trigger_vpn_server_endpoint, hb], ?_, ?_⟩
    · refine ⟨"Failed to update VPN Server configuration. Response status code: ",
        ", VPN Server UUID: " ++ vpn_id, ?_⟩
      simp [webhookErrorMsg, String.append_assoc]
    · refine ⟨"Failed to update VPN Server configuration. Response status code: " ++
        toString status ++ ", VPN Server UUID: ", "", ?_⟩
      simp [webhookErrorMsg, String.append_assoc, String.append_empty]

/-- C7 witness: the spec's example, status 503 for VPN id `v1`. -/
theorem C7_webhook_logs_status_and_id_witness :
    (trigger_vpn_server_endpoint 503 "v1").requestsMade = 1 ∧
    (trigger_vpn_server_endpoint 503 "v1").logs =
      [.error (webhookErrorMsg 503 "v1")] ∧
    containsText (webhookErrorMsg 503 "v1") "503" ∧
    containsText (webhookErrorMsg 503 "v1") "v1" :=
  ⟨(C7_webhook_logs_status_and_id 503 "v1").1,
   ((C7_webhook_logs_status_and_id 503 "v1").2.2 (by decide)).1,
   ((C7_webhook_logs_status_and_id 503 "v1").2.2 (by decide)).2.1,
   ((C7_webhook_logs_status_and_id 503 "v1").2.2 (by decide)).2.2⟩

/-! ## Claim theorems: Cache Invalidator change path -/

/-- C9: a model-name discriminator matching none of `device`,
`devicegroup`, `cert` makes the change-event cache invalidator invoke no
invalidation operation at all and return normally — the unrecognized
kind is a silent no-op. -/
theorem C9_unrecognized_model_silent_noop (instance_id model_name : String)
    (h1 : model_name ≠ deviceModelName) (h2 : model_name ≠ deviceGroupModelName)
    (h3 : model_name ≠ certModelName) :
    invalidate_devicegroup_cache_change instance_id model_name = [] := by
  simp [invalidate_devicegroup_cache_change, h1, h2, h3]

/-- C9 witness: model name `vpn` matches no branch; nothing is invoked. -/
theorem C9_unrecognized_model_silent_noop_witness :
    invalidate_devicegroup_cache_change "id1" "vpn" = [] :=
  C9_unrecognized_model_silent_noop "id1" "vpn" (by decide) (by decide)
    (by decide)

/-! ## Claim theorems: Template Cascade Manager -/

/-- C8 counterexample: the claim says the Config kind calls
`manage_backend_changed`; invoked with the Config model name and no
keyword arguments, the source instead raises `KeyError` from
`kwargs.pop('old_backend')` before any collaborator call, so the branch
neither calls its collaborator nor returns normally. -/
theorem C8_counterexample_config_missing_kwargs :
    change_devices_templates "cfg1" configModelName [] = .keyError := rfl

/-- C8 (amended): per invocation at most one collaborator is called,
chosen solely by the model-name discriminator; the Device kind calls
`manage_devices_group_templates`, the DeviceGroup kind calls
`manage_group_templates`, the Config kind calls `manage_backend_changed`
provided the `old_backend` and `backend` keyword arguments are present
(absent ones raise `KeyError` before any collaborator call), and a
discriminator matching none of the three kinds results in no collaborator
call and a normal return. -/
theorem C8_branch_routing (instance_id model_name : String)
    (kwargs : List (String × String)) :
    (change_devices_templates instance_id model_name kwargs).calls.length ≤ 1 ∧
    (model_name = deviceModelName →
      change_devices_templates instance_id model_name kwargs =
        .ok [.devices instance_id (kwargs.lookup "old_group_id")
          (kwargs.lookup "group_id")]) ∧
    (model_name = deviceGroupModelName →
      change_devices_templates instance_id model_name kwargs =
        .ok [.group instance_id (kwargs.lookup "old_templates")
          (kwargs.lookup "templates")]) ∧
    (model_name = configModelName →
      ∀ ob kwargs1 nb kwargs2, kwargsPop kwargs "old_backend" = some (ob, kwargs1) →
        kwargsPop kwargs1 "backend" = some (nb, kwargs2) →
        change_devices_templates instance_id model_name kwargs =
          .ok [.backend instance_id ob nb kwargs2]) ∧
    (model_name ≠ deviceModelName → model_name ≠ deviceGroupModelName →
      model_name ≠ configModelName →
      change_devices_templates instance_id model_name kwargs = .ok []) := by
  refine ⟨?_, ?_, ?_, ?_, ?_⟩
  · unfold change_devices_templates
    split
    · simp [CascadeOutcome.calls]
    · split
      · simp [CascadeOutcome.calls]
      · split
        · cases hp : kwargsPop kwargs "old_backend" with
          | none => simp [hp, CascadeOutcome.calls]
          | some p =>
            cases hq : kwargsPop p.2 "backend" with
            | none => simp [hp, hq, CascadeOutcome.calls]
            | some q => simp [hp, hq, CascadeOutcome.calls]
        · simp [CascadeOutcome.calls]
  · intro h
    subst h
    simp [change_devices_templates, deviceModelName]
  · intro h
    subst h
    simp [change_devices_templates, deviceModelName, deviceGroupModelName]
  · intro h ob kwargs1 nb kwargs2 hp hq
    subst h
    simp [change_devices_templates, deviceModelName, deviceGroupModelName,
      configModelName, hp, hq]
  · intro h1 h2 h3
    simp [change_devices_templates, h1, h2, h3]

/-- C8 witness: a config-kind invocation with both backend keyword
arguments present routes to `manage_backend_changed` with the remaining
keyword arguments forwarded. -/
theorem C8_branch_routing_witness :
    change_devices_templates "c1" configModelName
        [("old_backend", "netjson"), ("backend", "openwrt"), ("ctx", "x")] =
      .ok [.backend "c1" "netjson" "openwrt" [("ctx", "x")]] :=
  (C8_branch_routing "c1" configModelName
      [("old_backend", "netjson"), ("backend", "openwrt"), ("ctx", "x")]).2.2.2.1
    rfl "netjson" [("backend", "openwrt"), ("ctx", "x")] "openwrt"
    [("ctx", "x")] rfl rfl

/-- C10: the three cascade branches treat missing keyword arguments
asymmetrically: with the Config kind, an absent `old_backend` — or an
absent `backend` after `old_backend` was popped — raises `KeyError` and
no collaborator is called, whereas the Device and DeviceGroup kinds
tolerate absent keyword arguments by passing `None` to their
collaborator and returning normally. -/
theorem C10_kwargs_asymmetry (instance_id : String)
    (kwargs : List (String × String)) :
    ((kwargsPop kwargs "old_backend" = none ∨
      (∃ ob kwargs1, kwargsPop kwargs "old_backend" = some (ob, kwargs1) ∧
        kwargsPop kwargs1 "backend" = none)) →
      change_devices_templates instance_id configModelName kwargs = .keyError ∧
      (change_devices_templates instance_id configModelName kwargs).calls = []) ∧
    (kwargs.lookup "old_group_id" = none → kwargs.lookup "group_id" = none →
      change_devices_templates instance_id deviceModelName kwargs =
        .ok [.devices instance_id none none]) ∧
    (kwargs.lookup "old_templates" = none → kwargs.lookup "templates" = none →
      change_devices_templates instance_id deviceGroupModelName kwargs =
        .ok [.group instance_id none none]) := by
  refine ⟨?_, ?_, ?_⟩
  · intro h
    rcases h with hp | ⟨ob, kwargs1, hp, hq⟩
    · have : change_devices_templates instance_id configModelName kwargs =
          .keyError := by
        simp [change_devices_templates, deviceModelName, deviceGroupModelName,
          configModelName, hp]
      exact ⟨this, by rw [this]; rfl⟩
    · have : change_devices_templates instance_id configModelName kwargs =
          .keyError := by
        simp [change_devices_templates, deviceModelName, deviceGroupModelName,
          configModelName, hp, hq]
      exact ⟨this, by rw [this]; rfl⟩
  · intro h1 h2
    simp [change_devices_templates, deviceModelName, h1, h2]
  · intro h1 h2
    simp [change_devices_templates, deviceModelName, deviceGroupModelName, h1, h2]

/-- C10 witness: with only `backend` supplied, the config kind raises
`KeyError` with no collaborator call; with no keyword arguments at all,
the device kind calls its collaborator with `None` for both group ids. -/
theorem C10_kwargs_asymmetry_witness :
    (change_devices_templates "c1" configModelName [("backend", "openwrt")] =
      .keyError ∧
     (change_devices_templates "c1" configModelName
       [("backend", "openwrt")]).calls = []) ∧
    change_devices_templates "d1" deviceModelName [] =
      .ok [.devices "d1" none none] :=
  ⟨(C10_kwargs_asymmetry "c1" [("backend", "openwrt")]).1 (Or.inl rfl),
   (C10_kwargs_asymmetry "d1" []).2.1 rfl rfl⟩
